import Mathlib

/-!
Shallow embedding of the CPU core of `rust_gb`:
`src/register_bank.rs` (register file with packed flag byte),
`src/instruction.rs` (instruction vocabulary) and
`src/cpu.rs` (execution engine, ADD handler).

Bytes (`u8`) are modelled as `Nat`; every operation that the Rust `u8`
arithmetic wraps is written with an explicit `% 256`.  The 8-bit complement
`!m` of a mask is written `0xFF ^^^ m`.  Rust's `Result<(), &str>` on a
`&mut self` method is modelled by returning `Except String RegisterBank`:
`Ok(())` with the mutated bank becomes `.ok bank'`, `Err(msg)` becomes
`.error msg` (and the bank is unchanged, as in the source, where the early
`return Err` happens before the field assignment).
-/

/-- `enum Register` from `src/register_bank.rs`. -/
inductive Register where
  | A
  | B
  | C
  | D
  | E
  | F
  | H
  | L
deriving DecidableEq, Repr

/-- `struct RegisterBank` from `src/register_bank.rs`: eight byte cells. -/
structure RegisterBank where
  a : Nat
  b : Nat
  c : Nat
  d : Nat
  e : Nat
  f : Nat
  h : Nat
  l : Nat
deriving DecidableEq, Repr

namespace RegisterBank

/-- `RegisterBank::default()` (`#[derive(Default)]`): all cells zero. -/
def default : RegisterBank := ⟨0, 0, 0, 0, 0, 0, 0, 0⟩

/-- `RegisterBank::read`. -/
def read (bank : RegisterBank) (register : Register) : Nat :=
  match register with
  | .A => bank.a
  | .B => bank.b
  | .C => bank.c
  | .D => bank.d
  | .E => bank.e
  | .F => bank.f
  | .H => bank.h
  | .L => bank.l

/-- `RegisterBank::write_register`.  For `F` the source checks
`val & 0xF0 > 0` and returns `Err("Invalid register F value")`;
otherwise it stores `val` in the addressed cell and returns `Ok(())`. -/
def write_register (bank : RegisterBank) (register : Register) (val : Nat) :
    Except String RegisterBank :=
  match register with
  | .A => .ok { bank with a := val }
  | .B => .ok { bank with b := val }
  | .C => .ok { bank with c := val }
  | .D => .ok { bank with d := val }
  | .E => .ok { bank with e := val }
  | .F =>
      if val &&& 0xF0 > 0 then
        .error "Invalid register F value"
      else
        .ok { bank with f := val }
  | .H => .ok { bank with h := val }
  | .L => .ok { bank with l := val }

/-- `RegisterBank::read_bc`. -/
def read_bc (bank : RegisterBank) : Nat :=
  bank.b <<< 8 ||| bank.c

/-- `RegisterBank::write_bc`; `as u8` truncates to the low byte (`% 256`). -/
def write_bc (bank : RegisterBank) (value : Nat) : RegisterBank :=
  { bank with b := (value >>> 8) % 256, c := value % 256 }

/-- `RegisterBank::read_de`. -/
def read_de (bank : RegisterBank) : Nat :=
  bank.d <<< 8 ||| bank.e

/-- `RegisterBank::write_de`. -/
def write_de (bank : RegisterBank) (value : Nat) : RegisterBank :=
  { bank with d := (value >>> 8) % 256, e := value % 256 }

/-- `RegisterBank::read_hl`. -/
def read_hl (bank : RegisterBank) : Nat :=
  bank.h <<< 8 ||| bank.l

/-- `RegisterBank::write_hl`. -/
def write_hl (bank : RegisterBank) (value : Nat) : RegisterBank :=
  { bank with h := (value >>> 8) % 256, l := value % 256 }

/-- `RegisterBank::set_zero_bit`: `f |= 1 << 7` / `f &= !(1 << 7)`. -/
def set_zero_bit (bank : RegisterBank) (v : Bool) : RegisterBank :=
  if v then
    { bank with f := bank.f ||| (1 <<< 7) }
  else
    { bank with f := bank.f &&& (0xFF ^^^ (1 <<< 7)) }

/-- `RegisterBank::has_zero_bit`: `f & 1 << 7 != 0`. -/
def has_zero_bit (bank : RegisterBank) : Bool :=
  bank.f &&& (1 <<< 7) != 0

/-- `RegisterBank::set_subtraction_bit`: `f |= 1 << 6` / `f &= !(1 << 6)`. -/
def set_subtraction_bit (bank : RegisterBank) (v : Bool) : RegisterBank :=
  if v then
    { bank with f := bank.f ||| (1 <<< 6) }
  else
    { bank with f := bank.f &&& (0xFF ^^^ (1 <<< 6)) }

/-- `RegisterBank::has_subtraction_bit`: `f & 0b0100_0000 != 0`. -/
def has_subtraction_bit (bank : RegisterBank) : Bool :=
  bank.f &&& 0b01000000 != 0

/-- `RegisterBank::set_half_carry_bit`: `f |= 1 << 5` / `f &= !(1 << 5)`. -/
def set_half_carry_bit (bank : RegisterBank) (v : Bool) : RegisterBank :=
  if v then
    { bank with f := bank.f ||| (1 <<< 5) }
  else
    { bank with f := bank.f &&& (0xFF ^^^ (1 <<< 5)) }

/-- `RegisterBank::has_half_carry_bit`: `f & 0b0010_0000 != 0`. -/
def has_half_carry_bit (bank : RegisterBank) : Bool :=
  bank.f &&& 0b00100000 != 0

/-- `RegisterBank::set_carry_bit`: `f |= 1 << 4` / `f &= !(1 << 4)`. -/
def set_carry_bit (bank : RegisterBank) (v : Bool) : RegisterBank :=
  if v then
    { bank with f := bank.f ||| (1 <<< 4) }
  else
    { bank with f := bank.f &&& (0xFF ^^^ (1 <<< 4)) }

/-- `RegisterBank::has_carry_bit`: `f & 0b0001_0000 != 0`. -/
def has_carry_bit (bank : RegisterBank) : Bool :=
  bank.f &&& 0b00010000 != 0

end RegisterBank

/-- `enum ArithmeticTarget` from `src/instruction.rs`. -/
inductive ArithmeticTarget where
  | A
  | B
  | C
  | D
  | E
  | H
  | L
deriving DecidableEq, Repr

/-- `enum Instruction` from `src/instruction.rs`. -/
inductive Instruction where
  | Add (target : ArithmeticTarget)
deriving DecidableEq, Repr

/-- `struct Cpu` from `src/cpu.rs`. -/
structure Cpu where
  registers : RegisterBank
deriving DecidableEq, Repr

namespace Cpu

/-- `Cpu::add` (the ADD helper in `src/cpu.rs`).  `overflowing_add` on `u8`
is the wrapped sum `(old + v) % 256` together with the overflow condition
`old + v > 255`.  The trailing `.unwrap()` on the accumulator write-back is
modelled by keeping the flag-updated bank in the (unreachable) error branch;
writes to `A` always return `Ok`. -/
def add (cpu : Cpu) (reg : Register) : Cpu :=
  let v := cpu.registers.read reg
  let old := cpu.registers.read Register.A
  let new_v := (old + v) % 256
  let overflow := decide (old + v > 255)
  let r1 := cpu.registers.set_zero_bit (new_v == 0)
  let r2 := r1.set_subtraction_bit false
  let r3 := r2.set_carry_bit overflow
  let lower_carry := decide ((v &&& 0xF) + (old &&& 0xF) > 0xF)
  let r4 := r3.set_half_carry_bit lower_carry
  let r5 :=
    match r4.write_register Register.A new_v with
    | .ok bank => bank
    | .error _ => r4
  { cpu with registers := r5 }

/-- `Cpu::exec`: exhaustive dispatch on the instruction tag. -/
def exec (cpu : Cpu) (ins : Instruction) : Cpu :=
  match ins with
  | .Add target =>
    match target with
    | .A => cpu.add Register.A
    | .B => cpu.add Register.B
    | .C => cpu.add Register.C
    | .D => cpu.add Register.D
    | .E => cpu.add Register.E
    | .H => cpu.add Register.H
    | .L => cpu.add Register.L

end Cpu

/-- Spec-side name for the register an `Add` target reads from; it records
the one-to-one mapping the `exec` match arms use. -/
def ArithmeticTarget.toRegister : ArithmeticTarget → Register
  | .A => .A
  | .B => .B
  | .C => .C
  | .D => .D
  | .E => .E
  | .H => .H
  | .L => .L

/-! ### Helper lemmas about the packed flag byte -/

namespace RegisterBank

lemma land_shift_ne_zero (x k : Nat) : (x &&& (1 <<< k) != 0) = x.testBit k := by
  rw [Nat.one_shiftLeft, Nat.and_two_pow]
  cases h : x.testBit k <;> simp [pow_ne_zero]

lemma has_zero_bit_eq (bank : RegisterBank) : bank.has_zero_bit = bank.f.testBit 7 :=
  land_shift_ne_zero bank.f 7

lemma has_subtraction_bit_eq (bank : RegisterBank) :
    bank.has_subtraction_bit = bank.f.testBit 6 :=
  land_shift_ne_zero bank.f 6

lemma has_half_carry_bit_eq (bank : RegisterBank) :
    bank.has_half_carry_bit = bank.f.testBit 5 :=
  land_shift_ne_zero bank.f 5

lemma has_carry_bit_eq (bank : RegisterBank) : bank.has_carry_bit = bank.f.testBit 4 :=
  land_shift_ne_zero bank.f 4

lemma testBit_lor_shift (f j k : Nat) (h : j ≠ k) :
    (f ||| (1 <<< j)).testBit k = f.testBit k := by
  rw [Nat.testBit_lor, Nat.one_shiftLeft, Nat.testBit_two_pow_of_ne h, Bool.or_false]

lemma testBit_lor_shift_self (f j : Nat) : (f ||| (1 <<< j)).testBit j = true := by
  rw [Nat.testBit_lor, Nat.one_shiftLeft, Nat.testBit_two_pow_self, Bool.or_true]

lemma testBit_land_mask (f m k : Nat) (h : m.testBit k = true) :
    (f &&& m).testBit k = f.testBit k := by
  rw [Nat.testBit_land, h, Bool.and_true]

lemma testBit_land_mask_zero (f m k : Nat) (h : m.testBit k = false) :
    (f &&& m).testBit k = false := by
  rw [Nat.testBit_land, h, Bool.and_false]

lemma or_shift_testBit (f j k : Nat) :
    (f ||| (1 <<< j)).testBit k = if j = k then true else f.testBit k := by
  by_cases h : j = k
  · subst h; simp [testBit_lor_shift_self]
  · simp [h, testBit_lor_shift f j k h]

lemma mask_testBit (j k : Nat) (hj : j < 8) (hk : k < 8) :
    (0xFF ^^^ (1 <<< j)).testBit k = decide (k ≠ j) := by
  interval_cases j <;> interval_cases k <;> decide

/-- Bit image of `set_zero_bit` on the flag byte, for byte positions. -/
lemma set_zero_bit_testBit (bank : RegisterBank) (v : Bool) (k : Nat) (hk : k < 8) :
    ((bank.set_zero_bit v).f).testBit k = if k = 7 then v else bank.f.testBit k := by
  cases v
  · rw [show (bank.set_zero_bit false).f = bank.f &&& (0xFF ^^^ (1 <<< 7)) from rfl,
      Nat.testBit_land, mask_testBit 7 k (by omega) hk]
    by_cases h : k = 7 <;> simp [h]
  · rw [show (bank.set_zero_bit true).f = bank.f ||| (1 <<< 7) from rfl, or_shift_testBit]
    by_cases h : k = 7
    · subst h; simp
    · rw [if_neg (by omega), if_neg h]

/-- Bit image of `set_subtraction_bit` on the flag byte, for byte positions. -/
lemma set_subtraction_bit_testBit (bank : RegisterBank) (v : Bool) (k : Nat) (hk : k < 8) :
    ((bank.set_subtraction_bit v).f).testBit k = if k = 6 then v else bank.f.testBit k := by
  cases v
  · rw [show (bank.set_subtraction_bit false).f = bank.f &&& (0xFF ^^^ (1 <<< 6)) from rfl,
      Nat.testBit_land, mask_testBit 6 k (by omega) hk]
    by_cases h : k = 6 <;> simp [h]
  · rw [show (bank.set_subtraction_bit true).f = bank.f ||| (1 <<< 6) from rfl, or_shift_testBit]
    by_cases h : k = 6
    · subst h; simp
    · rw [if_neg (by omega), if_neg h]

/-- Bit image of `set_half_carry_bit` on the flag byte, for byte positions. -/
lemma set_half_carry_bit_testBit (bank : RegisterBank) (v : Bool) (k : Nat) (hk : k < 8) :
    ((bank.set_half_carry_bit v).f).testBit k = if k = 5 then v else bank.f.testBit k := by
  cases v
  · rw [show (bank.set_half_carry_bit false).f = bank.f &&& (0xFF ^^^ (1 <<< 5)) from rfl,
      Nat.testBit_land, mask_testBit 5 k (by omega) hk]
    by_cases h : k = 5 <;> simp [h]
  · rw [show (bank.set_half_carry_bit true).f = bank.f ||| (1 <<< 5) from rfl, or_shift_testBit]
    by_cases h : k = 5
    · subst h; simp
    · rw [if_neg (by omega), if_neg h]

/-- Bit image of `set_carry_bit` on the flag byte, for byte positions. -/
lemma set_carry_bit_testBit (bank : RegisterBank) (v : Bool) (k : Nat) (hk : k < 8) :
    ((bank.set_carry_bit v).f).testBit k = if k = 4 then v else bank.f.testBit k := by
  cases v
  · rw [show (bank.set_carry_bit false).f = bank.f &&& (0xFF ^^^ (1 <<< 4)) from rfl,
      Nat.testBit_land, mask_testBit 4 k (by omega) hk]
    by_cases h : k = 4 <;> simp [h]
  · rw [show (bank.set_carry_bit true).f = bank.f ||| (1 <<< 4) from rfl, or_shift_testBit]
    by_cases h : k = 4
    · subst h; simp
    · rw [if_neg (by omega), if_neg h]

lemma set_zero_bit_read_ne_f (bank : RegisterBank) (v : Bool) (r : Register)
    (h : r ≠ Register.F) : (bank.set_zero_bit v).read r = bank.read r := by
  cases v <;> cases r <;> first | exact absurd rfl h | rfl

lemma set_subtraction_bit_read_ne_f (bank : RegisterBank) (v : Bool) (r : Register)
    (h : r ≠ Register.F) : (bank.set_subtraction_bit v).read r = bank.read r := by
  cases v <;> cases r <;> first | exact absurd rfl h | rfl

lemma set_half_carry_bit_read_ne_f (bank : RegisterBank) (v : Bool) (r : Register)
    (h : r ≠ Register.F) : (bank.set_half_carry_bit v).read r = bank.read r := by
  cases v <;> cases r <;> first | exact absurd rfl h | rfl

lemma set_carry_bit_read_ne_f (bank : RegisterBank) (v : Bool) (r : Register)
    (h : r ≠ Register.F) : (bank.set_carry_bit v).read r = bank.read r := by
  cases v <;> cases r <;> first | exact absurd rfl h | rfl

lemma land_15_eq_mod (x : Nat) : x &&& 15 = x % 16 :=
  Nat.and_pow_two_sub_one_eq_mod x 4

lemma mod16_eq_of_testBit_eq (x y : Nat) (h : ∀ i, i < 4 → x.testBit i = y.testBit i) :
    x % 16 = y % 16 := by
  apply Nat.eq_of_testBit_eq
  intro i
  rw [show (16 : Nat) = 2 ^ 4 from rfl, Nat.testBit_mod_two_pow, Nat.testBit_mod_two_pow]
  by_cases hi : i < 4
  · simp [hi, h i hi]
  · simp [hi]

lemma set_zero_bit_land_15 (bank : RegisterBank) (v : Bool) :
    (bank.set_zero_bit v).f &&& 15 = bank.f &&& 15 := by
  rw [land_15_eq_mod, land_15_eq_mod]
  refine mod16_eq_of_testBit_eq _ _ fun i hi => ?_
  rw [set_zero_bit_testBit bank v i (by omega), if_neg (by omega)]

lemma set_subtraction_bit_land_15 (bank : RegisterBank) (v : Bool) :
    (bank.set_subtraction_bit v).f &&& 15 = bank.f &&& 15 := by
  rw [land_15_eq_mod, land_15_eq_mod]
  refine mod16_eq_of_testBit_eq _ _ fun i hi => ?_
  rw [set_subtraction_bit_testBit bank v i (by omega), if_neg (by omega)]

lemma set_half_carry_bit_land_15 (bank : RegisterBank) (v : Bool) :
    (bank.set_half_carry_bit v).f &&& 15 = bank.f &&& 15 := by
  rw [land_15_eq_mod, land_15_eq_mod]
  refine mod16_eq_of_testBit_eq _ _ fun i hi => ?_
  rw [set_half_carry_bit_testBit bank v i (by omega), if_neg (by omega)]

lemma set_carry_bit_land_15 (bank : RegisterBank) (v : Bool) :
    (bank.set_carry_bit v).f &&& 15 = bank.f &&& 15 := by
  rw [land_15_eq_mod, land_15_eq_mod]
  refine mod16_eq_of_testBit_eq _ _ fun i hi => ?_
  rw [set_carry_bit_testBit bank v i (by omega), if_neg (by omega)]

end RegisterBank

namespace RegisterBank

lemma update_a_f (bank : RegisterBank) (nv : Nat) :
    ({ bank with a := nv } : RegisterBank).f = bank.f := rfl

lemma update_a_has_zero (bank : RegisterBank) (nv : Nat) :
    ({ bank with a := nv } : RegisterBank).has_zero_bit = bank.has_zero_bit := rfl

lemma update_a_has_subtraction (bank : RegisterBank) (nv : Nat) :
    ({ bank with a := nv } : RegisterBank).has_subtraction_bit = bank.has_subtraction_bit := rfl

lemma update_a_has_half_carry (bank : RegisterBank) (nv : Nat) :
    ({ bank with a := nv } : RegisterBank).has_half_carry_bit = bank.has_half_carry_bit := rfl

lemma update_a_has_carry (bank : RegisterBank) (nv : Nat) :
    ({ bank with a := nv } : RegisterBank).has_carry_bit = bank.has_carry_bit := rfl

lemma update_a_read_ne (bank : RegisterBank) (nv : Nat) (r : Register)
    (h : r ≠ Register.A) : ({ bank with a := nv } : RegisterBank).read r = bank.read r := by
  cases r <;> first | exact absurd rfl h | rfl

lemma set_zero_bit_b (bank : RegisterBank) (v : Bool) :
    (bank.set_zero_bit v).b = bank.b := by cases v <;> rfl

lemma set_zero_bit_c (bank : RegisterBank) (v : Bool) :
    (bank.set_zero_bit v).c = bank.c := by cases v <;> rfl

lemma set_zero_bit_d (bank : RegisterBank) (v : Bool) :
    (bank.set_zero_bit v).d = bank.d := by cases v <;> rfl

lemma set_zero_bit_e (bank : RegisterBank) (v : Bool) :
    (bank.set_zero_bit v).e = bank.e := by cases v <;> rfl

lemma set_zero_bit_h (bank : RegisterBank) (v : Bool) :
    (bank.set_zero_bit v).h = bank.h := by cases v <;> rfl

lemma set_zero_bit_l (bank : RegisterBank) (v : Bool) :
    (bank.set_zero_bit v).l = bank.l := by cases v <;> rfl

lemma set_subtraction_bit_b (bank : RegisterBank) (v : Bool) :
    (bank.set_subtraction_bit v).b = bank.b := by cases v <;> rfl

lemma set_subtraction_bit_c (bank : RegisterBank) (v : Bool) :
    (bank.set_subtraction_bit v).c = bank.c := by cases v <;> rfl

lemma set_subtraction_bit_d (bank : RegisterBank) (v : Bool) :
    (bank.set_subtraction_bit v).d = bank.d := by cases v <;> rfl

lemma set_subtraction_bit_e (bank : RegisterBank) (v : Bool) :
    (bank.set_subtraction_bit v).e = bank.e := by cases v <;> rfl

lemma set_subtraction_bit_h (bank : RegisterBank) (v : Bool) :
    (bank.set_subtraction_bit v).h = bank.h := by cases v <;> rfl

lemma set_subtraction_bit_l (bank : RegisterBank) (v : Bool) :
    (bank.set_subtraction_bit v).l = bank.l := by cases v <;> rfl

lemma set_half_carry_bit_b (bank : RegisterBank) (v : Bool) :
    (bank.set_half_carry_bit v).b = bank.b := by cases v <;> rfl

lemma set_half_carry_bit_c (bank : RegisterBank) (v : Bool) :
    (bank.set_half_carry_bit v).c = bank.c := by cases v <;> rfl

lemma set_half_carry_bit_d (bank : RegisterBank) (v : Bool) :
    (bank.set_half_carry_bit v).d = bank.d := by cases v <;> rfl

lemma set_half_carry_bit_e (bank : RegisterBank) (v : Bool) :
    (bank.set_half_carry_bit v).e = bank.e := by cases v <;> rfl

lemma set_half_carry_bit_h (bank : RegisterBank) (v : Bool) :
    (bank.set_half_carry_bit v).h = bank.h := by cases v <;> rfl

lemma set_half_carry_bit_l (bank : RegisterBank) (v : Bool) :
    (bank.set_half_carry_bit v).l = bank.l := by cases v <;> rfl

lemma set_carry_bit_b (bank : RegisterBank) (v : Bool) :
    (bank.set_carry_bit v).b = bank.b := by cases v <;> rfl

lemma set_carry_bit_c (bank : RegisterBank) (v : Bool) :
    (bank.set_carry_bit v).c = bank.c := by cases v <;> rfl

lemma set_carry_bit_d (bank : RegisterBank) (v : Bool) :
    (bank.set_carry_bit v).d = bank.d := by cases v <;> rfl

lemma set_carry_bit_e (bank : RegisterBank) (v : Bool) :
    (bank.set_carry_bit v).e = bank.e := by cases v <;> rfl

lemma set_carry_bit_h (bank : RegisterBank) (v : Bool) :
    (bank.set_carry_bit v).h = bank.h := by cases v <;> rfl

lemma set_carry_bit_l (bank : RegisterBank) (v : Bool) :
    (bank.set_carry_bit v).l = bank.l := by cases v <;> rfl

/-- Net effect of the four flag-setter calls the ADD handler makes, in the
order the source makes them: zero := `z`, subtraction := `false`,
carry := `c`, half-carry := `h'`; the low nibble of `F` is untouched. -/
lemma flags_after_chain (bank : RegisterBank) (z c h' : Bool) :
    ((((bank.set_zero_bit z).set_subtraction_bit false).set_carry_bit c).set_half_carry_bit h').has_zero_bit = z ∧
    ((((bank.set_zero_bit z).set_subtraction_bit false).set_carry_bit c).set_half_carry_bit h').has_subtraction_bit = false ∧
    ((((bank.set_zero_bit z).set_subtraction_bit false).set_carry_bit c).set_half_carry_bit h').has_carry_bit = c ∧
    ((((bank.set_zero_bit z).set_subtraction_bit false).set_carry_bit c).set_half_carry_bit h').has_half_carry_bit = h' ∧
    ((((bank.set_zero_bit z).set_subtraction_bit false).set_carry_bit c).set_half_carry_bit h').f &&& 15 = bank.f &&& 15 := by
  refine ⟨?_, ?_, ?_, ?_, ?_⟩
  · rw [has_zero_bit_eq,
      set_half_carry_bit_testBit _ _ 7 (by omega), if_neg (by omega),
      set_carry_bit_testBit _ _ 7 (by omega), if_neg (by omega),
      set_subtraction_bit_testBit _ _ 7 (by omega), if_neg (by omega),
      set_zero_bit_testBit _ _ 7 (by omega), if_pos rfl]
  · rw [has_subtraction_bit_eq,
      set_half_carry_bit_testBit _ _ 6 (by omega), if_neg (by omega),
      set_carry_bit_testBit _ _ 6 (by omega), if_neg (by omega),
      set_subtraction_bit_testBit _ _ 6 (by omega), if_pos rfl]
  · rw [has_carry_bit_eq,
      set_half_carry_bit_testBit _ _ 4 (by omega), if_neg (by omega),
      set_carry_bit_testBit _ _ 4 (by omega), if_pos rfl]
  · rw [has_half_carry_bit_eq, set_half_carry_bit_testBit _ _ 5 (by omega), if_pos rfl]
  · rw [set_half_carry_bit_land_15, set_carry_bit_land_15,
      set_subtraction_bit_land_15, set_zero_bit_land_15]

/-- Recombining the stored high and low bytes of a 16-bit value gives the
value back. -/
lemma high_low_recombine (v : Nat) (hv : v < 65536) :
    ((v >>> 8) % 256) <<< 8 ||| v % 256 = v := by
  apply Nat.eq_of_testBit_eq
  intro i
  rw [Nat.testBit_lor, Nat.testBit_shiftLeft,
    show (256 : Nat) = 2 ^ 8 from rfl, Nat.testBit_mod_two_pow, Nat.testBit_mod_two_pow,
    Nat.testBit_shiftRight]
  by_cases h1 : i < 8
  · have h2 : ¬ (i ≥ 8) := by omega
    simp [h1, h2]
  · by_cases h2 : i < 16
    · have hge : i ≥ 8 := by omega
      have hlt : i - 8 < 8 := by omega
      have hadd : 8 + (i - 8) = i := by omega
      simp [hge, hlt, h1, hadd]
    · have hge : i ≥ 8 := by omega
      have hlt : ¬ (i - 8 < 8) := by omega
      have hvi : v < 2 ^ i := by
        calc v < 65536 := hv
        _ = 2 ^ 16 := by norm_num
        _ ≤ 2 ^ i := Nat.pow_le_pow_right (by norm_num) (by omega)
      simp [hge, hlt, h1, Nat.testBit_eq_false_of_lt hvi]

lemma shiftRight8_lt (v : Nat) (hv : v < 65536) : v >>> 8 < 256 := by
  rw [Nat.shiftRight_eq_div_pow]
  omega

end RegisterBank

namespace Cpu

/-- Unfolded form of `Cpu.add`: the four flag setters run on the starting
bank and the wrapped sum lands in `a` (the accumulator write-back takes the
`Ok` branch of `write_register`). -/
lemma add_def (cpu : Cpu) (reg : Register) :
    cpu.add reg =
      ⟨{ (((cpu.registers.set_zero_bit
              (((cpu.registers.read Register.A + cpu.registers.read reg) % 256) ==
                0)).set_subtraction_bit
              false).set_carry_bit
              (decide
                (cpu.registers.read Register.A + cpu.registers.read reg >
                  255))).set_half_carry_bit
            (decide
              ((cpu.registers.read reg &&& 0xF) + (cpu.registers.read Register.A &&& 0xF) >
                0xF)) with
          a := (cpu.registers.read Register.A + cpu.registers.read reg) % 256 }⟩ := rfl

/-- `exec` on `Add target` is `add` at the register named by the target. -/
lemma exec_add (cpu : Cpu) (t : ArithmeticTarget) :
    cpu.exec (.Add t) = cpu.add t.toRegister := by
  cases t <;> rfl

end Cpu

example : RegisterBank.default.write_register Register.F 0xF0 =
    Except.error "Invalid register F value" := rfl

example : RegisterBank.default.write_register Register.F 0x0F =
    Except.ok { RegisterBank.default with f := 0x0F } := rfl

example :
    let cpu : Cpu := ⟨{ RegisterBank.default with a := 0xFF, b := 0x01 }⟩
    let cpu' := cpu.exec (.Add .B)
    cpu'.registers.a = 0 ∧ cpu'.registers.has_zero_bit = true ∧
    cpu'.registers.has_carry_bit = true ∧
    cpu'.registers.has_half_carry_bit = true ∧
    cpu'.registers.has_subtraction_bit = false := by decide

/-! ### Claims -/

/-- C1: the spec claims `write(F, v)` succeeds iff `v &&& 0x0F = 0`, storing
`v` on success.  The code's guard is the inverted mask `val &&& 0xF0 > 0`:
`0xF0` (low nibble zero, should succeed per the claim and per the source's
own comment "only the top 4 bits are writable") is rejected, while `0x0F`
(low nibble set, should fail with `InvalidFlagValue`) is accepted and stored. -/
theorem writeF_validation_mask_inverted :
    RegisterBank.default.write_register Register.F 0xF0 =
        Except.error "Invalid register F value" ∧
    RegisterBank.default.write_register Register.F 0x0F =
        Except.ok { RegisterBank.default with f := 0x0F } :=
  ⟨rfl, rfl⟩

/-- C2: the invariant `F &&& 0x0F = 0` is not preserved by the public
interface: starting from the all-zero bank (where the low nibble of `F` is
zero), `write_register F 0x0F` succeeds and leaves `F = 0x0F`, whose low
nibble is non-zero. -/
theorem flag_invariant_low_nibble_broken :
    RegisterBank.default.f &&& 0x0F = 0 ∧
    RegisterBank.default.write_register Register.F 0x0F =
        Except.ok { RegisterBank.default with f := 0x0F } ∧
    ({ RegisterBank.default with f := 0x0F } : RegisterBank).f &&& 0x0F ≠ 0 :=
  ⟨rfl, rfl, by decide⟩

/-- C3: executing `Add target` from bytes `old` (register `A`) and `v` (the
target register) stores `(old + v) % 256` in `A`, sets the zero flag to
`(old + v) % 256 == 0` and the carry flag to `old + v > 255`. -/
theorem add_stores_sum_sets_zero_and_carry (cpu : Cpu) (t : ArithmeticTarget)
    (_ha : cpu.registers.read Register.A < 256)
    (_hv : cpu.registers.read t.toRegister < 256) :
    (cpu.exec (.Add t)).registers.read Register.A =
        (cpu.registers.read Register.A + cpu.registers.read t.toRegister) % 256 ∧
    (cpu.exec (.Add t)).registers.has_zero_bit =
        ((cpu.registers.read Register.A + cpu.registers.read t.toRegister) % 256 == 0) ∧
    (cpu.exec (.Add t)).registers.has_carry_bit =
        decide (cpu.registers.read Register.A + cpu.registers.read t.toRegister > 255) := by
  rw [Cpu.exec_add, Cpu.add_def]
  refine ⟨rfl, ?_, ?_⟩
  · rw [RegisterBank.update_a_has_zero]
    exact (RegisterBank.flags_after_chain cpu.registers _ _ _).1
  · rw [RegisterBank.update_a_has_carry]
    exact (RegisterBank.flags_after_chain cpu.registers _ _ _).2.2.1

theorem add_stores_sum_sets_zero_and_carry_witness :
    ((⟨{ RegisterBank.default with a := 0xFF, b := 0x01 }⟩ : Cpu).registers.read
        Register.A < 256) ∧
    ((⟨{ RegisterBank.default with a := 0xFF, b := 0x01 }⟩ : Cpu).registers.read
        ArithmeticTarget.B.toRegister < 256) ∧
    ((⟨{ RegisterBank.default with a := 0xFF, b := 0x01 }⟩ : Cpu).exec
            (.Add .B)).registers.read Register.A =
        ((⟨{ RegisterBank.default with a := 0xFF, b := 0x01 }⟩ : Cpu).registers.read
              Register.A +
            (⟨{ RegisterBank.default with a := 0xFF, b := 0x01 }⟩ : Cpu).registers.read
              ArithmeticTarget.B.toRegister) % 256 :=
  ⟨by decide, by decide,
    (add_stores_sum_sets_zero_and_carry
      ⟨{ RegisterBank.default with a := 0xFF, b := 0x01 }⟩ .B (by decide) (by decide)).1⟩

/-- C4: after `Add target`, the half-carry flag is
`(old &&& 0xF) + (v &&& 0xF) > 0xF`, computed from the low nibbles alone. -/
theorem add_half_carry_from_low_nibbles (cpu : Cpu) (t : ArithmeticTarget)
    (_ha : cpu.registers.read Register.A < 256)
    (_hv : cpu.registers.read t.toRegister < 256) :
    (cpu.exec (.Add t)).registers.has_half_carry_bit =
      decide ((cpu.registers.read Register.A &&& 0xF) +
          (cpu.registers.read t.toRegister &&& 0xF) > 0xF) := by
  rw [Cpu.exec_add, Cpu.add_def, RegisterBank.update_a_has_half_carry]
  rw [(RegisterBank.flags_after_chain cpu.registers _ _ _).2.2.2.1]
  rw [Nat.add_comm (cpu.registers.read t.toRegister &&& 0xF)
    (cpu.registers.read Register.A &&& 0xF)]

theorem add_half_carry_from_low_nibbles_witness :
    ((⟨{ RegisterBank.default with a := 0x0F, b := 0x01 }⟩ : Cpu).registers.read
        Register.A < 256) ∧
    ((⟨{ RegisterBank.default with a := 0x0F, b := 0x01 }⟩ : Cpu).registers.read
        ArithmeticTarget.B.toRegister < 256) ∧
    ((⟨{ RegisterBank.default with a := 0x0F, b := 0x01 }⟩ : Cpu).exec
          (.Add .B)).registers.has_half_carry_bit =
      decide (((⟨{ RegisterBank.default with a := 0x0F, b := 0x01 }⟩ : Cpu).registers.read
            Register.A &&& 0xF) +
          ((⟨{ RegisterBank.default with a := 0x0F, b := 0x01 }⟩ : Cpu).registers.read
            ArithmeticTarget.B.toRegister &&& 0xF) > 0xF) :=
  ⟨by decide, by decide,
    add_half_carry_from_low_nibbles
      ⟨{ RegisterBank.default with a := 0x0F, b := 0x01 }⟩ .B (by decide) (by decide)⟩

/-- C5: after `Add target` the subtraction flag is `false`, for every starting
bank (in particular whatever the flag was before) and every target: the
handler clears it unconditionally. -/
theorem add_clears_subtraction_flag (cpu : Cpu) (t : ArithmeticTarget) :
    (cpu.exec (.Add t)).registers.has_subtraction_bit = false := by
  rw [Cpu.exec_add, Cpu.add_def, RegisterBank.update_a_has_subtraction]
  exact (RegisterBank.flags_after_chain cpu.registers _ _ _).2.1

/-- C6: `write_register` on register `A` always succeeds (it returns `Ok` and
stores the value), for every bank and every value; hence the `unwrap` on the
accumulator write-back in the ADD handler can never hit the error branch. -/
theorem write_to_accumulator_never_fails (bank : RegisterBank) (val : Nat) :
    bank.write_register Register.A val = Except.ok { bank with a := val } := rfl

/-- C7: each flag setter changes at most its own bit of `F`: the other three
flag bits, the low nibble of `F`, and every register other than `F` read the
same before and after the call, for every starting bank and boolean. -/
theorem flag_setters_touch_only_their_own_bit (bank : RegisterBank) (v : Bool) :
    ((bank.set_zero_bit v).has_subtraction_bit = bank.has_subtraction_bit ∧
      (bank.set_zero_bit v).has_half_carry_bit = bank.has_half_carry_bit ∧
      (bank.set_zero_bit v).has_carry_bit = bank.has_carry_bit ∧
      (bank.set_zero_bit v).f &&& 0x0F = bank.f &&& 0x0F ∧
      ∀ r, r ≠ Register.F → (bank.set_zero_bit v).read r = bank.read r) ∧
    ((bank.set_subtraction_bit v).has_zero_bit = bank.has_zero_bit ∧
      (bank.set_subtraction_bit v).has_half_carry_bit = bank.has_half_carry_bit ∧
      (bank.set_subtraction_bit v).has_carry_bit = bank.has_carry_bit ∧
      (bank.set_subtraction_bit v).f &&& 0x0F = bank.f &&& 0x0F ∧
      ∀ r, r ≠ Register.F → (bank.set_subtraction_bit v).read r = bank.read r) ∧
    ((bank.set_half_carry_bit v).has_zero_bit = bank.has_zero_bit ∧
      (bank.set_half_carry_bit v).has_subtraction_bit = bank.has_subtraction_bit ∧
      (bank.set_half_carry_bit v).has_carry_bit = bank.has_carry_bit ∧
      (bank.set_half_carry_bit v).f &&& 0x0F = bank.f &&& 0x0F ∧
      ∀ r, r ≠ Register.F → (bank.set_half_carry_bit v).read r = bank.read r) ∧
    ((bank.set_carry_bit v).has_zero_bit = bank.has_zero_bit ∧
      (bank.set_carry_bit v).has_subtraction_bit = bank.has_subtraction_bit ∧
      (bank.set_carry_bit v).has_half_carry_bit = bank.has_half_carry_bit ∧
      (bank.set_carry_bit v).f &&& 0x0F = bank.f &&& 0x0F ∧
      ∀ r, r ≠ Register.F → (bank.set_carry_bit v).read r = bank.read r) := by
  refine ⟨⟨?_, ?_, ?_, RegisterBank.set_zero_bit_land_15 bank v,
      RegisterBank.set_zero_bit_read_ne_f bank v⟩,
    ⟨?_, ?_, ?_, RegisterBank.set_subtraction_bit_land_15 bank v,
      RegisterBank.set_subtraction_bit_read_ne_f bank v⟩,
    ⟨?_, ?_, ?_, RegisterBank.set_half_carry_bit_land_15 bank v,
      RegisterBank.set_half_carry_bit_read_ne_f bank v⟩,
    ⟨?_, ?_, ?_, RegisterBank.set_carry_bit_land_15 bank v,
      RegisterBank.set_carry_bit_read_ne_f bank v⟩⟩
  · rw [RegisterBank.has_subtraction_bit_eq, RegisterBank.has_subtraction_bit_eq,
      RegisterBank.set_zero_bit_testBit _ _ 6 (by omega), if_neg (by omega)]
  · rw [RegisterBank.has_half_carry_bit_eq, RegisterBank.has_half_carry_bit_eq,
      RegisterBank.set_zero_bit_testBit _ _ 5 (by omega), if_neg (by omega)]
  · rw [RegisterBank.has_carry_bit_eq, RegisterBank.has_carry_bit_eq,
      RegisterBank.set_zero_bit_testBit _ _ 4 (by omega), if_neg (by omega)]
  · rw [RegisterBank.has_zero_bit_eq, RegisterBank.has_zero_bit_eq,
      RegisterBank.set_subtraction_bit_testBit _ _ 7 (by omega), if_neg (by omega)]
  · rw [RegisterBank.has_half_carry_bit_eq, RegisterBank.has_half_carry_bit_eq,
      RegisterBank.set_subtraction_bit_testBit _ _ 5 (by omega), if_neg (by omega)]
  · rw [RegisterBank.has_carry_bit_eq, RegisterBank.has_carry_bit_eq,
      RegisterBank.set_subtraction_bit_testBit _ _ 4 (by omega), if_neg (by omega)]
  · rw [RegisterBank.has_zero_bit_eq, RegisterBank.has_zero_bit_eq,
      RegisterBank.set_half_carry_bit_testBit _ _ 7 (by omega), if_neg (by omega)]
  · rw [RegisterBank.has_subtraction_bit_eq, RegisterBank.has_subtraction_bit_eq,
      RegisterBank.set_half_carry_bit_testBit _ _ 6 (by omega), if_neg (by omega)]
  · rw [RegisterBank.has_carry_bit_eq, RegisterBank.has_carry_bit_eq,
      RegisterBank.set_half_carry_bit_testBit _ _ 4 (by omega), if_neg (by omega)]
  · rw [RegisterBank.has_zero_bit_eq, RegisterBank.has_zero_bit_eq,
      RegisterBank.set_carry_bit_testBit _ _ 7 (by omega), if_neg (by omega)]
  · rw [RegisterBank.has_subtraction_bit_eq, RegisterBank.has_subtraction_bit_eq,
      RegisterBank.set_carry_bit_testBit _ _ 6 (by omega), if_neg (by omega)]
  · rw [RegisterBank.has_half_carry_bit_eq, RegisterBank.has_half_carry_bit_eq,
      RegisterBank.set_carry_bit_testBit _ _ 5 (by omega), if_neg (by omega)]

theorem flag_setters_touch_only_their_own_bit_witness :
    Register.A ≠ Register.F ∧
    (RegisterBank.default.set_zero_bit true).read Register.A =
      RegisterBank.default.read Register.A :=
  ⟨by decide,
    (flag_setters_touch_only_their_own_bit RegisterBank.default
        true).1.2.2.2.2 Register.A (by decide)⟩

/-- C8: for every 16-bit `v` and each pair BC, DE, HL, writing `v` and
reading the pair back gives `v`, the first register of the pair holds the
high byte `v >>> 8` and the second the low byte `v &&& 0xFF`. -/
theorem pair_write_read_roundtrip (bank : RegisterBank) (v : Nat)
    (hv : v < 65536) :
    ((bank.write_bc v).read_bc = v ∧
      (bank.write_bc v).read Register.B = v >>> 8 ∧
      (bank.write_bc v).read Register.C = v &&& 0xFF) ∧
    ((bank.write_de v).read_de = v ∧
      (bank.write_de v).read Register.D = v >>> 8 ∧
      (bank.write_de v).read Register.E = v &&& 0xFF) ∧
    ((bank.write_hl v).read_hl = v ∧
      (bank.write_hl v).read Register.H = v >>> 8 ∧
      (bank.write_hl v).read Register.L = v &&& 0xFF) :=
  ⟨⟨RegisterBank.high_low_recombine v hv,
      Nat.mod_eq_of_lt (RegisterBank.shiftRight8_lt v hv),
      (Nat.and_pow_two_sub_one_eq_mod v 8).symm⟩,
    ⟨RegisterBank.high_low_recombine v hv,
      Nat.mod_eq_of_lt (RegisterBank.shiftRight8_lt v hv),
      (Nat.and_pow_two_sub_one_eq_mod v 8).symm⟩,
    ⟨RegisterBank.high_low_recombine v hv,
      Nat.mod_eq_of_lt (RegisterBank.shiftRight8_lt v hv),
      (Nat.and_pow_two_sub_one_eq_mod v 8).symm⟩⟩

theorem pair_write_read_roundtrip_witness :
    (0x11AA : Nat) < 65536 ∧
    (RegisterBank.default.write_bc 0x11AA).read_bc = 0x11AA :=
  ⟨by decide,
    (pair_write_read_roundtrip RegisterBank.default 0x11AA (by decide)).1.1⟩

/-- C9: for every register other than `F` and every value, `write_register`
succeeds and reading that register back gives the written value. -/
theorem write_read_roundtrip_non_flag (bank : RegisterBank) (r : Register)
    (h : r ≠ Register.F) (val : Nat) :
    ∃ bank', bank.write_register r val = Except.ok bank' ∧ bank'.read r = val := by
  cases r
  all_goals first | exact absurd rfl h | exact ⟨_, rfl, rfl⟩

theorem write_read_roundtrip_non_flag_witness :
    Register.A ≠ Register.F ∧
    ∃ bank', RegisterBank.default.write_register Register.A 5 = Except.ok bank' ∧
      bank'.read Register.A = 5 :=
  ⟨by decide, write_read_roundtrip_non_flag RegisterBank.default Register.A (by decide) 5⟩

/-- C10: `Add target` leaves registers B, C, D, E, H, L unchanged and leaves
the low nibble of `F` unchanged, for every starting bank and target. -/
theorem add_preserves_other_registers_and_low_nibble (cpu : Cpu)
    (t : ArithmeticTarget) :
    (cpu.exec (.Add t)).registers.read Register.B = cpu.registers.read Register.B ∧
    (cpu.exec (.Add t)).registers.read Register.C = cpu.registers.read Register.C ∧
    (cpu.exec (.Add t)).registers.read Register.D = cpu.registers.read Register.D ∧
    (cpu.exec (.Add t)).registers.read Register.E = cpu.registers.read Register.E ∧
    (cpu.exec (.Add t)).registers.read Register.H = cpu.registers.read Register.H ∧
    (cpu.exec (.Add t)).registers.read Register.L = cpu.registers.read Register.L ∧
    (cpu.exec (.Add t)).registers.f &&& 0x0F = cpu.registers.f &&& 0x0F := by
  rw [Cpu.exec_add, Cpu.add_def]
  refine ⟨?_, ?_, ?_, ?_, ?_, ?_, ?_⟩ <;>
    simp only [RegisterBank.read,
      RegisterBank.set_half_carry_bit_b, RegisterBank.set_carry_bit_b,
      RegisterBank.set_subtraction_bit_b, RegisterBank.set_zero_bit_b,
      RegisterBank.set_half_carry_bit_c, RegisterBank.set_carry_bit_c,
      RegisterBank.set_subtraction_bit_c, RegisterBank.set_zero_bit_c,
      RegisterBank.set_half_carry_bit_d, RegisterBank.set_carry_bit_d,
      RegisterBank.set_subtraction_bit_d, RegisterBank.set_zero_bit_d,
      RegisterBank.set_half_carry_bit_e, RegisterBank.set_carry_bit_e,
      RegisterBank.set_subtraction_bit_e, RegisterBank.set_zero_bit_e,
      RegisterBank.set_half_carry_bit_h, RegisterBank.set_carry_bit_h,
      RegisterBank.set_subtraction_bit_h, RegisterBank.set_zero_bit_h,
      RegisterBank.set_half_carry_bit_l, RegisterBank.set_carry_bit_l,
      RegisterBank.set_subtraction_bit_l, RegisterBank.set_zero_bit_l,
      RegisterBank.set_half_carry_bit_land_15, RegisterBank.set_carry_bit_land_15,
      RegisterBank.set_subtraction_bit_land_15, RegisterBank.set_zero_bit_land_15]
